import Mathlib

/-!
Shallow embedding of the movie-search component of
`src/MovieDataConsoleApplication.py` (the `Movie` dataclass, the three
`SearchStrategy` subclasses, `MovieDataSource` and `MovieManager`),
together with proofs checking the natural-language specification's claims
against it.

Modelling conventions:
* Python strings are `List Char`; `str.lower` is a character-wise map
  (the ASCII fragment, which is all the data model exercises).
* Python file-modification timestamps are integers (`Int`): only their
  ordering is ever used by the code.
* Python exceptions become `Except PyExc` results: `fileNotFound` for
  `getmtime`/`open` on a missing or unreadable file, `typeError` for
  `int(None)`, `valueError` for `int` on a non-integer string, and
  `attributeError` for `.lower()` on `None` (or on an `int` query).
* The CSV file after `csv.DictReader` has been applied is a list of
  `RawRow`s: each row maps the three required column names to cell
  strings. `DictReader` fills a short row's missing cells with `None`
  (its `restval` default), so a missing cell is `none` and flows into the
  constructed object as Python `None` — it does not raise at access time.
* The `Movie` dataclass therefore stores `Option (List Char)` for `title`
  and `director` (a cell string or `None`); `release_year` is always an
  integer because `int(...)` would have raised otherwise. `Record` is the
  well-formed fragment (both strings present), embedded by `Record.movie`.
* `_load_movies` is modelled in its real stages: the row loop, then the
  installation of the new snapshot, then `_build_index` — whose year loop
  always completes and whose director loop raises `AttributeError` at the
  first `None` director, leaving the partially rebuilt index in place.
* The external world (file system) is a `FileState` passed explicitly to
  the operations that touch it; mutable object state is passed as
  explicit state values (`SourceState`, `ManagerState`). `SourceState`
  carries a ghost counter of `_load_movies` invocations (the spec's
  observable "load counter"; the source logs one line per entry).
-/

namespace MovieApp

/-- Python `str.lower()` on a string modelled as a character list. -/
def pyLower (s : List Char) : List Char := s.map Char.toLower

/-- Helper for substring search: does `hay` start with `needle`?
(`List.isPrefixOf` re-implemented locally). -/
def startsWith : List Char → List Char → Bool
  | [], _ => true
  | _ :: _, [] => false
  | a :: as, b :: bs => a == b && startsWith as bs

/-- Python's `needle in hay` substring test on strings. -/
def containsSub (needle : List Char) : List Char → Bool
  | [] => needle.isEmpty
  | c :: rest => startsWith needle (c :: rest) || containsSub needle rest

/-- Python whitespace as stripped by `int(str)`. -/
def pyIsSpace (c : Char) : Bool :=
  c == ' ' || c == '\t' || c == '\n' || c == '\r' || c == '\x0c' || c == '\x0b'

/-- Strip leading and trailing whitespace. -/
def pyStrip (s : List Char) : List Char :=
  ((s.dropWhile pyIsSpace).reverse.dropWhile pyIsSpace).reverse

/-- Decimal value of a digit string. -/
def digitsVal (ds : List Char) : Nat :=
  ds.foldl (fun a c => a * 10 + (c.toNat - 48)) 0

/-- Parse an unsigned digit block: at least one character, all digits. -/
def pyIntDigits (ds : List Char) : Option Int :=
  if ds.isEmpty then none
  else if ds.all Char.isDigit then some (Int.ofNat (digitsVal ds)) else none

/-- Model of Python `int(s)` on a string: optional surrounding whitespace,
optional sign, then a non-empty run of decimal digits; anything else is a
`ValueError` (`none`). -/
def pyInt (s : List Char) : Option Int :=
  match pyStrip s with
  | '+' :: ds => pyIntDigits ds
  | '-' :: ds => (pyIntDigits ds).map (fun n => -n)
  | ds => pyIntDigits ds

/-- The `Movie` dataclass (`frozen=True`) as constructed at runtime:
`title` and `director` hold whatever `row['...']` produced — a cell
string, or Python `None` (`none`) when `csv.DictReader` filled a short
row's missing cell; the dataclass itself enforces nothing. `release_year`
is always an integer because `int(...)` raised otherwise. -/
structure Movie where
  title : Option (List Char)
  release_year : Int
  director : Option (List Char)
deriving DecidableEq, Repr

/-- A well-formed movie record in the specification's sense: both string
fields actually present. -/
structure Record where
  title : List Char
  release_year : Int
  director : List Char
deriving DecidableEq, Repr

/-- Embed a well-formed record into the runtime dataclass. -/
def Record.movie (r : Record) : Movie :=
  { title := some r.title, release_year := r.release_year, director := some r.director }

/-- One CSV data row as produced by `csv.DictReader`: the cell under each
required column name; `none` when the (short) data row has no cell for
that column, in which case `DictReader` supplies `None` (`restval`). -/
structure RawRow where
  title : Option (List Char)
  release_year : Option (List Char)
  director : Option (List Char)
deriving DecidableEq, Repr

/-- The Python exceptions this component can raise (and, after logging,
re-raise out of `_load_movies`). -/
inductive PyExc
  /-- `os.path.getmtime` / `open` on a missing or unreadable file. -/
  | fileNotFound
  /-- `int(None)` when the year cell is missing. -/
  | typeError
  /-- `int(...)` on a non-integer year string. -/
  | valueError
  /-- `None.lower()` (from `_build_index` on a `None` director, or from a
  string strategy on a `None` title/director), or `.lower()` on an `int`
  query. -/
  | attributeError
deriving DecidableEq, Repr

/-- Build one `Movie` from a row, as lines 85-89 do. `csv.DictReader`
fills a short row's missing cells with `None`, so `row['title']` and
`row['director']` never raise here: a missing cell flows into the
constructed object as `None`. Only `int(row['release_year'])` can raise:
`TypeError` on `None`, `ValueError` on a non-integer string. -/
def parseRow (r : RawRow) : Except PyExc Movie :=
  match r.release_year with
  | none => .error .typeError
  | some ys =>
    match pyInt ys with
    | none => .error .valueError
    | some y => .ok { title := r.title, release_year := y, director := r.director }

/-- The row loop of `_load_movies` (lines 84-90): build the movie objects
in file order into a fresh local list; the first failing row aborts the
loop with its exception and the local list is discarded. -/
def loadRows : List RawRow → Except PyExc (List Movie)
  | [] => .ok []
  | r :: rest =>
    match parseRow r with
    | .error e => .error e
    | .ok m =>
      match loadRows rest with
      | .error e => .error e
      | .ok ms => .ok (m :: ms)

/-- Python `str(n)` on an integer (decimal, `-` sign). -/
def pyStrInt (n : Int) : List Char := (toString n).data

/-- One bucket map of `_index` (`defaultdict(list)`): an association list
from key to the bucket, in key-insertion order. -/
def Buckets : Type := List (List Char × List Movie)

instance : DecidableEq Buckets := by
  unfold Buckets
  infer_instance

/-- `self._index['...'][k].append(m)`: append `m` to the bucket at key
`k`, creating the bucket at the end when the key is new. -/
def idxAppend : Buckets → List Char → Movie → Buckets
  | [], k, m => [(k, [m])]
  | (k', l) :: rest, k, m =>
    if k = k' then (k', l ++ [m]) :: rest else (k', l) :: idxAppend rest k m

/-- Read a bucket (a missing key reads as the empty bucket, matching
`defaultdict`). -/
def idxGet : Buckets → List Char → List Movie
  | [], _ => []
  | (k', l) :: rest, k => if k = k' then l else idxGet rest k

/-- The two secondary indices `_index['year']` and `_index['director']`. -/
structure MovieIndex where
  year : Buckets
  director : Buckets
deriving DecidableEq

/-- The year loop of `_build_index` (lines 104-105), run from the cleared
index: `str(movie.release_year)` always succeeds, so this loop always
completes, appending every movie in snapshot order. -/
def buildYear (ms : List Movie) : Buckets :=
  ms.foldl (fun a m => idxAppend a (pyStrInt m.release_year) m) []

/-- The director loop of `_build_index` (lines 108-109):
`movie.director.lower()` raises `AttributeError` at the first `None`
director, leaving the buckets appended so far in place. -/
def buildDirector : List Movie → Buckets → Buckets × Option PyExc
  | [], acc => (acc, none)
  | m :: rest, acc =>
    match m.director with
    | none => (acc, some .attributeError)
    | some d => buildDirector rest (idxAppend acc (pyLower d) m)

/-- One run of `_build_index` (lines 99-109): clear the whole index,
rebuild the year buckets in full, then the director buckets until the
first `None` director; returns the index state it leaves in place
together with the raised exception, if any. -/
def buildIndexRun (ms : List Movie) : MovieIndex × Option PyExc :=
  ({ year := buildYear ms, director := (buildDirector ms []).1 },
   (buildDirector ms []).2)

/-- The index state `_build_index` leaves behind — complete when it ran
to the end, torn (full year buckets, truncated director buckets) when the
director loop raised. -/
def buildIndex (ms : List Movie) : MovieIndex := (buildIndexRun ms).1

/-- The overall outcome of the `_load_movies` body: the row loop, then —
only if the loop completed — the snapshot installation and the index
rebuild; `.ok` with the new snapshot exactly when the whole body ran to
completion. -/
def loadMovies (rows : List RawRow) : Except PyExc (List Movie) :=
  match loadRows rows with
  | .error e => .error e
  | .ok ms =>
    match (buildIndexRun ms).2 with
    | some e => .error e
    | none => .ok ms

/-- Mutable state of a `MovieDataSource` object: `_movies`,
`_last_modified` (initially `0`), `_index`, plus a ghost counter of
`_load_movies` invocations (the spec's observable "load counter"; the
source logs one line at each `_load_movies` entry). -/
structure SourceState where
  movies : Option (List Movie)
  last_modified : Int
  index : MovieIndex
  loads : Nat
deriving DecidableEq

/-- `MovieDataSource.__init__`: no snapshot, timestamp 0, empty index. -/
def MovieDataSource.mkState : SourceState :=
  { movies := none, last_modified := 0, index := { year := [], director := [] }, loads := 0 }

/-- The external file designated by `self.filename`: `none` when the file
is missing/unreadable (so `getmtime`/`open` raise), otherwise its
modification time and its `DictReader` rows. -/
structure FileState where
  file : Option (Int × List RawRow)
deriving DecidableEq

/-- The `movies` property of `MovieDataSource` (lines 65-75): read the
file's modification time; then, under the lock, reload if there is no
snapshot yet or the time is strictly newer than `_last_modified`. A
reload whose row loop raises installs nothing; but when the row loop
completes and `_build_index` raises, the new snapshot is already
installed (line 92) and the index has been cleared and partially rebuilt
(full year buckets, truncated director buckets) before the exception
propagates — only the `_last_modified` update (line 73) is skipped. On
full success the timestamp advances and the new snapshot is returned;
with no reload triggered the stored snapshot is returned unchanged. -/
def MovieDataSource.movies (fs : FileState) (st : SourceState) :
    Except PyExc (List Movie) × SourceState :=
  match fs.file with
  | none => (.error .fileNotFound, st)
  | some (mtime, rows) =>
    if st.movies = none ∨ mtime > st.last_modified then
      match loadRows rows with
      | .error e => (.error e, { st with loads := st.loads + 1 })
      | .ok ms =>
        match (buildIndexRun ms).2 with
        | none =>
          (.ok ms,
           { movies := some ms, last_modified := mtime,
             index := buildIndex ms, loads := st.loads + 1 })
        | some e =>
          (.error e,
           { movies := some ms, last_modified := st.last_modified,
             index := buildIndex ms, loads := st.loads + 1 })
    else
      (.ok (st.movies.getD []), st)

/-- A Python value reaching `search` as the query argument: the console
passes a `str` for title/director and an `int` for year, but the store and
cache are dynamically typed. -/
inductive PyValue
  | int (n : Int)
  | str (s : List Char)
deriving DecidableEq, Repr

/-- Python `==` across the two value shapes: values of different types
compare unequal (no exception). -/
def pyEq : PyValue → PyValue → Bool
  | .int a, .int b => a == b
  | .str a, .str b => a == b
  | _, _ => false

/-- The list comprehension of `TitleSearchStrategy.search`: test each
movie in file order; `movie.title.lower()` raises `AttributeError` at the
first `None` title, discarding the matches collected so far. -/
def titleFilter (q : List Char) : List Movie → Except PyExc (List Movie)
  | [] => .ok []
  | m :: rest =>
    match m.title with
    | none => .error .attributeError
    | some tt =>
      match titleFilter q rest with
      | .error e => .error e
      | .ok ms => .ok (if containsSub q (pyLower tt) then m :: ms else ms)

/-- The list comprehension of `DirectorSearchStrategy.search`, likewise
on `director`. -/
def directorFilter (q : List Char) : List Movie → Except PyExc (List Movie)
  | [] => .ok []
  | m :: rest =>
    match m.director with
    | none => .error .attributeError
    | some d =>
      match directorFilter q rest with
      | .error e => .error e
      | .ok ms => .ok (if containsSub q (pyLower d) then m :: ms else ms)

/-- `TitleSearchStrategy.search`: lower-case the query, keep the movies
whose lower-cased title contains it as a substring, in list order. -/
def TitleSearchStrategy.search (movies : List Movie) (query : List Char) :
    Except PyExc (List Movie) :=
  titleFilter (pyLower query) movies

/-- `YearSearchStrategy.search`: keep the movies whose `release_year`
compares `==` to the query; the query is any Python value and `==` never
raises. -/
def YearSearchStrategy.search (movies : List Movie) (query : PyValue) : List Movie :=
  movies.filter (fun m => pyEq (.int m.release_year) query)

/-- `DirectorSearchStrategy.search`: like title search, on `director`. -/
def DirectorSearchStrategy.search (movies : List Movie) (query : List Char) :
    Except PyExc (List Movie) :=
  directorFilter (pyLower query) movies

/-- `SearchCriteria` enum. -/
inductive SearchCriteria
  | TITLE
  | YEAR
  | DIRECTOR
deriving DecidableEq, Repr

/-- `self._search_strategies[criteria]` followed by
`strategy.search(movies, query)`; `query.lower()` on an `int` raises
`AttributeError` in the string strategies. -/
def runStrategy (c : SearchCriteria) (movies : List Movie) (q : PyValue) :
    Except PyExc (List Movie) :=
  match c, q with
  | .TITLE, .str s => TitleSearchStrategy.search movies s
  | .DIRECTOR, .str s => DirectorSearchStrategy.search movies s
  | .YEAR, _ => .ok (YearSearchStrategy.search movies q)
  | .TITLE, .int _ => .error .attributeError
  | .DIRECTOR, .int _ => .error .attributeError

/-- The `functools.lru_cache(maxsize=128)` wrapped around
`MovieManager.search`, most-recently-used entry first, keyed on the raw
argument tuple `(criteria, query)` exactly as passed. -/
def SearchCache : Type := List ((SearchCriteria × PyValue) × List Movie)

instance : DecidableEq SearchCache := by
  unfold SearchCache
  infer_instance

/-- Mutable state of a `MovieManager`: its `MovieDataSource` plus the
lru_cache attached to `search`. -/
structure ManagerState where
  source : SourceState
  cache : SearchCache
deriving DecidableEq

/-- `MovieManager.__init__`: fresh data source, empty cache. -/
def MovieManager.mkState : ManagerState :=
  { source := MovieDataSource.mkState, cache := [] }

/-- `MovieManager.search` (lines 121-125) with its lru_cache behaviour
made explicit. Key = the raw `(criteria, query)` pair. On a hit, the
cached list is returned and merely moved to the front (most recently
used); the body — and hence the data source — is not run. On a miss, the
body runs: `self.data_source.movies` first (which may reload or raise),
then the strategy; only a successful result is inserted, evicting the
least-recently-used entry when the cache is full (128 entries). -/
def MovieManager.search (fs : FileState) (c : SearchCriteria) (q : PyValue)
    (st : ManagerState) : Except PyExc (List Movie) × ManagerState :=
  match st.cache.lookup (c, q) with
  | some res =>
    (.ok res, { st with cache := ((c, q), res) :: st.cache.filter (fun e => !(e.1 == (c, q))) })
  | none =>
    match MovieDataSource.movies fs st.source with
    | (.error e, src) => (.error e, { st with source := src })
    | (.ok ms, src) =>
      match runStrategy c ms q with
      | .error e => (.error e, { st with source := src })
      | .ok res =>
        (.ok res,
         { source := src,
           cache := ((c, q), res) ::
             (if st.cache.length ≥ 128 then st.cache.dropLast else st.cache) })

/-- The public attribute surface of class `MovieDataSource`: its methods
and properties as defined in the source (lines 56-109). -/
def MovieDataSource.methodNames : List String :=
  ["__init__", "movies", "_load_movies", "_build_index"]

/-- The atomic actions the `movies` property body performs, in source
order (lines 68-75). -/
inductive StoreAction
  | getmtime
  | checkStale
  | loadCall
  | buildIndexCall
  | setLastModified
  | returnSnapshot
deriving DecidableEq, Repr

/-- One action of the `movies` property body together with whether the
source executes it inside the `with self._lock:` block. -/
structure LockedStep where
  underLock : Bool
  action : StoreAction
deriving DecidableEq, Repr

/-- Line-by-line lock structure of the `movies` property body:
`os.path.getmtime` runs on line 68, before `with self._lock:` on line 70;
the staleness check, `_load_movies` (which also rebuilds the index),
the `_last_modified` update and the `return` run inside the block. -/
def moviesLockSteps : List LockedStep :=
  [⟨false, .getmtime⟩, ⟨true, .checkStale⟩, ⟨true, .loadCall⟩,
   ⟨true, .buildIndexCall⟩, ⟨true, .setLastModified⟩, ⟨true, .returnSnapshot⟩]

/-- A row is well formed when all three required columns are present and
the year cell parses as an integer. -/
def rowOk (r : RawRow) : Bool :=
  r.title.isSome && r.release_year.isSome && r.director.isSome &&
    (pyInt (r.release_year.getD [])).isSome

/-- The `Movie` a row constructs when its year parses: each field is
exactly the row's cell (missing cells flow through as `None`). -/
def rowMovie (r : RawRow) : Movie :=
  { title := r.title
    release_year := (pyInt (r.release_year.getD [])).getD 0
    director := r.director }

/-- Total number of movie occurrences stored in a bucket map. -/
def bucketsTotal (b : Buckets) : Nat := (b.map (fun e => e.2.length)).sum

/-- The snapshot and the year index agree in count: the index holds
exactly as many entries as the record list. -/
def indexAgrees (st : SourceState) : Prop :=
  bucketsTotal st.index.year = (st.movies.getD []).length

/- Concrete fixture: the spec's two-record example file. -/

/-- CSV row `("Inception",2010,"Nolan")`. -/
def inceptionRow : RawRow :=
  { title := some "Inception".data, release_year := some "2010".data,
    director := some "Nolan".data }

/-- CSV row `("Interstellar",2014,"Nolan")`. -/
def interstellarRow : RawRow :=
  { title := some "Interstellar".data, release_year := some "2014".data,
    director := some "Nolan".data }

/-- The example file's rows, in file order. -/
def demoRows : List RawRow := [inceptionRow, interstellarRow]

/-- Inception as a well-formed record. -/
def inceptionR : Record :=
  { title := "Inception".data, release_year := 2010, director := "Nolan".data }

/-- Interstellar as a well-formed record. -/
def interstellarR : Record :=
  { title := "Interstellar".data, release_year := 2014, director := "Nolan".data }

/-- The Inception movie object the example file loads to. -/
def inception : Movie := inceptionR.movie

/-- The Interstellar movie object the example file loads to. -/
def interstellar : Movie := interstellarR.movie

/-- The example records. -/
def demoRecords : List Record := [inceptionR, interstellarR]

/-- The snapshot the example file loads to, in file order. -/
def demoMovies : List Movie := [inception, interstellar]

/-- The example file on disk, modification time 1. -/
def demoFS : FileState := FileState.mk (some (1, demoRows))

/-- The source state right after the example file has been loaded once. -/
def demoSt1 : SourceState :=
  { movies := some demoMovies, last_modified := 1,
    index := buildIndex demoMovies, loads := 1 }

/-- A short CSV row with no `director` cell: `("Dunkirk","2017")`. -/
def dunkirkRow : RawRow :=
  { title := some "Dunkirk".data, release_year := some "2017".data, director := none }

/-- A file whose second data row is missing its director cell. -/
def badFS : FileState := FileState.mk (some (5, [inceptionRow, dunkirkRow]))

/-- A row missing only its `title` cell. -/
def noTitleRow : RawRow :=
  { title := none, release_year := some "1997".data, director := some "Cameron".data }

/-- The updated example file: newer modification time, different rows. -/
def demoFS2 : FileState := FileState.mk (some (2, [interstellarRow]))

/-- Manager state after `search(Director, "nolan")` on the example file. -/
def mgrAfterNolan : ManagerState :=
  (MovieManager.search demoFS .DIRECTOR (.str "nolan".data) MovieManager.mkState).2

/-- Manager state after `search(Title, "A")` on the example file. -/
def mgrAfterTitleA : ManagerState :=
  (MovieManager.search demoFS .TITLE (.str "A".data) MovieManager.mkState).2

/- Lemma layer. -/

/-- `startsWith` tests for a prefix decomposition. -/
theorem startsWith_iff (n h : List Char) :
    startsWith n h = true ↔ ∃ t, h = n ++ t := by
  induction n generalizing h with
  | nil => simp [startsWith]
  | cons a as ih =>
    cases h with
    | nil => simp [startsWith]
    | cons b bs =>
      simp only [startsWith, Bool.and_eq_true, beq_iff_eq, ih, List.cons_append,
        List.cons.injEq]
      constructor
      · rintro ⟨rfl, t, rfl⟩
        exact ⟨t, rfl, rfl⟩
      · rintro ⟨t, rfl, rfl⟩
        exact ⟨rfl, t, rfl⟩

/-- `containsSub` tests for a substring decomposition, exactly Python's
`needle in hay`. -/
theorem containsSub_iff (n h : List Char) :
    containsSub n h = true ↔ ∃ p t, h = p ++ n ++ t := by
  induction h with
  | nil =>
    simp only [containsSub, List.isEmpty_iff]
    constructor
    · rintro rfl
      exact ⟨[], [], rfl⟩
    · rintro ⟨p, t, hp⟩
      cases p <;> cases n <;> simp_all
  | cons c rest ih =>
    simp only [containsSub, Bool.or_eq_true, startsWith_iff, ih]
    constructor
    · rintro (⟨t, ht⟩ | ⟨p, t, ht⟩)
      · exact ⟨[], t, by simpa using ht⟩
      · exact ⟨c :: p, t, by simp [ht]⟩
    · rintro ⟨p, t, ht⟩
      cases p with
      | nil => exact Or.inl ⟨t, by simpa using ht⟩
      | cons x xs =>
        simp only [List.cons_append, List.cons.injEq] at ht
        exact Or.inr ⟨xs, t, ht.2⟩

/-- A well-formed row constructs its field-wise movie object. -/
theorem parseRow_ok_of_rowOk (r : RawRow) (h : rowOk r = true) :
    parseRow r = .ok (rowMovie r) := by
  simp only [rowOk, Bool.and_eq_true, Option.isSome_iff_exists] at h
  obtain ⟨⟨⟨⟨t, ht⟩, y, hy⟩, d, hd⟩, v, hv⟩ := h
  rw [hy, Option.getD_some] at hv
  simp [parseRow, rowMovie, hy, hv]

/-- The row loop on a file of well-formed rows yields the field-wise
movie list, in file order. -/
theorem loadRows_ok (rows : List RawRow) (h : ∀ r ∈ rows, rowOk r = true) :
    loadRows rows = .ok (rows.map rowMovie) := by
  induction rows with
  | nil => rfl
  | cons r rest ih =>
    have hr := h r (by simp)
    have hrest : ∀ x ∈ rest, rowOk x = true := fun x hx => h x (by simp [hx])
    simp [loadRows, parseRow_ok_of_rowOk r hr, ih hrest]

/-- When every director is present, the director loop completes and is
the plain fold of appends under the lower-cased director keys. -/
theorem buildDirector_ok (ms : List Movie) (h : ∀ m ∈ ms, m.director.isSome = true)
    (acc : Buckets) :
    buildDirector ms acc =
      (ms.foldl (fun a m => idxAppend a (pyLower (m.director.getD [])) m) acc, none) := by
  induction ms generalizing acc with
  | nil => rfl
  | cons m rest ih =>
    cases hm : m.director with
    | none =>
      have := h m (by simp)
      rw [hm] at this
      simp at this
    | some d =>
      simp only [buildDirector, hm, List.foldl_cons, Option.getD_some]
      exact ih (fun x hx => h x (by simp [hx])) _

/-- Conversely, a director loop that ran to completion saw no `None`
director. -/
theorem buildDirector_all_some (ms : List Movie) :
    ∀ acc, (buildDirector ms acc).2 = none → ∀ m ∈ ms, m.director.isSome = true := by
  induction ms with
  | nil =>
    intro acc _ m hm
    cases hm
  | cons x rest ih =>
    intro acc h m hm
    simp only [buildDirector] at h
    cases hx : x.director with
    | none =>
      rw [hx] at h
      simp at h
    | some d =>
      rw [hx] at h
      rcases List.mem_cons.mp hm with rfl | hmem
      · rw [hx]
        rfl
      · exact ih _ h m hmem

/-- When every director is present, `_build_index` raises nothing. -/
theorem buildIndexRun_ok (ms : List Movie)
    (h : ∀ m ∈ ms, m.director.isSome = true) :
    (buildIndexRun ms).2 = none := by
  show (buildDirector ms []).2 = none
  rw [buildDirector_ok ms h []]

/-- Splitting a successful `_load_movies` outcome into its stages. -/
theorem loadMovies_ok_elim (rows : List RawRow) (ms : List Movie)
    (h : loadMovies rows = .ok ms) :
    loadRows rows = .ok ms ∧ (buildIndexRun ms).2 = none := by
  unfold loadMovies at h
  cases hr : loadRows rows with
  | error e =>
    rw [hr] at h
    simp at h
  | ok objs =>
    rw [hr] at h
    simp only [] at h
    cases hb : (buildIndexRun objs).2 with
    | some e =>
      rw [hb] at h
      simp at h
    | none =>
      rw [hb] at h
      simp only [Except.ok.injEq] at h
      subst h
      exact ⟨rfl, hb⟩

/-- Assembling a successful `_load_movies` outcome from its stages. -/
theorem loadMovies_ok_intro (rows : List RawRow) (ms : List Movie)
    (hr : loadRows rows = .ok ms) (hb : (buildIndexRun ms).2 = none) :
    loadMovies rows = .ok ms := by
  unfold loadMovies
  rw [hr]
  simp [hb]

/-- Reading a bucket map after one append. -/
theorem idxGet_idxAppend (b : Buckets) (k k' : List Char) (m : Movie) :
    idxGet (idxAppend b k m) k' =
      if k' = k then idxGet b k' ++ [m] else idxGet b k' := by
  induction b with
  | nil =>
    by_cases h : k' = k <;> simp [idxAppend, idxGet, h]
  | cons e rest ih =>
    rcases e with ⟨kk, l⟩
    by_cases h1 : k = kk
    · subst h1
      by_cases h2 : k' = k <;> simp [idxAppend, idxGet, h2]
    · by_cases h2 : k' = kk
      · subst h2
        have h3 : ¬ k' = k := fun hc => h1 hc.symm
        simp [idxAppend, idxGet, h1, h3]
      · simp [idxAppend, idxGet, h1, h2, ih]

/-- Reading a bucket map built by folding appends over a movie list:
the bucket at `k` is the accumulator's bucket followed by the movies
whose key is `k`, in list order. -/
theorem idxGet_fold (key : Movie → List Char) (ms : List Movie) (acc : Buckets)
    (k : List Char) :
    idxGet (ms.foldl (fun a m => idxAppend a (key m) m) acc) k =
      idxGet acc k ++ ms.filter (fun m => decide (key m = k)) := by
  induction ms generalizing acc with
  | nil => simp
  | cons m rest ih =>
    simp only [List.foldl_cons, ih, List.filter_cons]
    rw [idxGet_idxAppend]
    by_cases h : key m = k
    · simp [h]
    · have h2 : ¬ k = key m := fun hc => h hc.symm
      simp [h, h2]

/-- The year buckets of the index `_build_index` leaves behind hold
exactly the movies with that year key, in snapshot order (the year loop
always completes). -/
theorem buildIndex_year (ms : List Movie) (k : List Char) :
    idxGet (buildIndex ms).year k =
      ms.filter (fun m => decide (pyStrInt m.release_year = k)) := by
  show idxGet (buildYear ms) k = _
  unfold buildYear
  simpa using idxGet_fold (fun m => pyStrInt m.release_year) ms [] k

/-- When every director is present, the director buckets of the index
hold exactly the movies with that lower-cased director key, in snapshot
order. -/
theorem buildIndex_director (ms : List Movie)
    (h : ∀ m ∈ ms, m.director.isSome = true) (k : List Char) :
    idxGet (buildIndex ms).director k =
      ms.filter (fun m => decide (pyLower (m.director.getD []) = k)) := by
  show idxGet (buildDirector ms []).1 k = _
  rw [buildDirector_ok ms h []]
  simpa using idxGet_fold (fun m => pyLower (m.director.getD [])) ms [] k

/-- Appending one movie grows the bucket total by one. -/
theorem bucketsTotal_idxAppend (b : Buckets) (k : List Char) (m : Movie) :
    bucketsTotal (idxAppend b k m) = bucketsTotal b + 1 := by
  induction b with
  | nil => simp [idxAppend, bucketsTotal]
  | cons e rest ih =>
    rcases e with ⟨kk, l⟩
    by_cases h : k = kk
    · simp [idxAppend, h, bucketsTotal]
      omega
    · simp [idxAppend, h, bucketsTotal] at ih ⊢
      omega

/-- Folding appends over a movie list grows the bucket total by the
list's length. -/
theorem bucketsTotal_fold (key : Movie → List Char) (ms : List Movie) (acc : Buckets) :
    bucketsTotal (ms.foldl (fun a m => idxAppend a (key m) m) acc) =
      bucketsTotal acc + ms.length := by
  induction ms generalizing acc with
  | nil => simp
  | cons m rest ih =>
    simp only [List.foldl_cons, ih, bucketsTotal_idxAppend, List.length_cons]
    omega

/-- The year buckets of any index `_build_index` leaves behind — torn or
not — count exactly the snapshot. -/
theorem bucketsTotal_buildIndex_year (ms : List Movie) :
    bucketsTotal (buildIndex ms).year = ms.length := by
  show bucketsTotal (buildYear ms) = ms.length
  unfold buildYear
  simpa [bucketsTotal] using bucketsTotal_fold (fun m => pyStrInt m.release_year) ms []

/-- The title comprehension on embedded well-formed records never raises
and computes the case-insensitive substring filter. -/
theorem titleFilter_map (ms : List Record) (q : List Char) :
    titleFilter q (ms.map Record.movie) =
      .ok ((ms.filter (fun r => containsSub q (pyLower r.title))).map Record.movie) := by
  induction ms with
  | nil => rfl
  | cons r rest ih =>
    simp only [List.map_cons, titleFilter, Record.movie, ih, List.filter_cons]
    cases h : containsSub q (pyLower r.title) <;> simp [h, Record.movie]

/-- The director comprehension on embedded well-formed records never
raises and computes the case-insensitive substring filter. -/
theorem directorFilter_map (ms : List Record) (q : List Char) :
    directorFilter q (ms.map Record.movie) =
      .ok ((ms.filter (fun r => containsSub q (pyLower r.director))).map Record.movie) := by
  induction ms with
  | nil => rfl
  | cons r rest ih =>
    simp only [List.map_cons, directorFilter, Record.movie, ih, List.filter_cons]
    cases h : containsSub q (pyLower r.director) <;> simp [h, Record.movie]

/-- Unfolding of the `movies` property when the file is present. -/
theorem movies_eq (fs : FileState) (t : Int) (rows : List RawRow)
    (st : SourceState) (hf : fs.file = some (t, rows)) :
    MovieDataSource.movies fs st =
      if st.movies = none ∨ t > st.last_modified then
        match loadRows rows with
        | .error e => (.error e, { st with loads := st.loads + 1 })
        | .ok ms =>
          match (buildIndexRun ms).2 with
          | none =>
            (.ok ms,
             { movies := some ms, last_modified := t,
               index := buildIndex ms, loads := st.loads + 1 })
          | some e =>
            (.error e,
             { movies := some ms, last_modified := st.last_modified,
               index := buildIndex ms, loads := st.loads + 1 })
      else (.ok (st.movies.getD []), st) := by
  unfold MovieDataSource.movies
  rw [hf]

/-- Unfolding of `search` on a cache hit. -/
theorem search_hit (fs : FileState) (c : SearchCriteria) (q : PyValue)
    (st : ManagerState) (res : List Movie)
    (h : st.cache.lookup (c, q) = some res) :
    MovieManager.search fs c q st =
      (.ok res,
       { st with cache := ((c, q), res) :: st.cache.filter (fun e => !(e.1 == (c, q))) }) := by
  unfold MovieManager.search
  rw [h]

/-- Unfolding of `search` on a cache miss when the data source raises. -/
theorem search_miss_load_error (fs : FileState) (c : SearchCriteria) (q : PyValue)
    (st : ManagerState) (e : PyExc) (src : SourceState)
    (h : st.cache.lookup (c, q) = none)
    (hs : MovieDataSource.movies fs st.source = (.error e, src)) :
    MovieManager.search fs c q st = (.error e, { st with source := src }) := by
  unfold MovieManager.search
  rw [h, hs]

/-- Unfolding of `search` on a cache miss when the strategy raises. -/
theorem search_miss_strategy_error (fs : FileState) (c : SearchCriteria)
    (q : PyValue) (st : ManagerState) (ms : List Movie) (src : SourceState)
    (e : PyExc) (h : st.cache.lookup (c, q) = none)
    (hs : MovieDataSource.movies fs st.source = (.ok ms, src))
    (hr : runStrategy c ms q = .error e) :
    MovieManager.search fs c q st = (.error e, { st with source := src }) := by
  unfold MovieManager.search
  rw [h, hs]
  simp [hr]

/-- Unfolding of `search` on a cache miss that computes a result: the
store is consulted, the strategy runs on its snapshot, and the result is
inserted under the raw key `(c, q)`. -/
theorem search_miss_ok (fs : FileState) (c : SearchCriteria) (q : PyValue)
    (st : ManagerState) (ms : List Movie) (src : SourceState) (res : List Movie)
    (h : st.cache.lookup (c, q) = none)
    (hs : MovieDataSource.movies fs st.source = (.ok ms, src))
    (hr : runStrategy c ms q = .ok res) :
    MovieManager.search fs c q st =
      (.ok res,
       { source := src,
         cache := ((c, q), res) ::
           (if st.cache.length ≥ 128 then st.cache.dropLast else st.cache) }) := by
  unfold MovieManager.search
  rw [h, hs]
  simp [hr]

/-- After any successful `search`, the raw request key is cached with the
returned result. -/
theorem search_ok_lookup (fs : FileState) (c : SearchCriteria) (q : PyValue)
    (st : ManagerState) (res : List Movie) (st' : ManagerState)
    (h : MovieManager.search fs c q st = (.ok res, st')) :
    st'.cache.lookup (c, q) = some res := by
  cases hl : st.cache.lookup (c, q) with
  | some v =>
    rw [search_hit fs c q st v hl] at h
    simp only [Prod.mk.injEq, Except.ok.injEq] at h
    obtain ⟨rfl, rfl⟩ := h
    simp [List.lookup]
  | none =>
    rcases hsrc : MovieDataSource.movies fs st.source with ⟨r, src⟩
    cases r with
    | error e =>
      rw [search_miss_load_error fs c q st e src hl hsrc] at h
      simp at h
    | ok ms =>
      cases hstrat : runStrategy c ms q with
      | error e =>
        rw [search_miss_strategy_error fs c q st ms src e hl hsrc hstrat] at h
        simp at h
      | ok res2 =>
        rw [search_miss_ok fs c q st ms src res2 hl hsrc hstrat] at h
        simp only [Prod.mk.injEq, Except.ok.injEq] at h
        obtain ⟨rfl, rfl⟩ := h
        simp [List.lookup]

/- Claim theorems. -/

/-- C1: every call to the `movies` accessor first compares the file's
modification timestamp with the last observed one: (a) if no snapshot
exists yet or the timestamp is strictly newer, it performs a full reload
and returns the new content; (b) otherwise it returns the identical
existing snapshot with the state untouched (no redundant reload); (c) so
a repeated call with the file untouched returns the identical snapshot
and state again. -/
theorem C1_freshness_check (fs : FileState) (t : Int) (rows : List RawRow)
    (st : SourceState) (hf : fs.file = some (t, rows)) :
    (∀ ms, (st.movies = none ∨ t > st.last_modified) → loadMovies rows = .ok ms →
      MovieDataSource.movies fs st =
        (.ok ms,
         { movies := some ms, last_modified := t,
           index := buildIndex ms, loads := st.loads + 1 }))
    ∧ (∀ ms₀, st.movies = some ms₀ → ¬ t > st.last_modified →
      MovieDataSource.movies fs st = (.ok ms₀, st))
    ∧ (∀ res st', MovieDataSource.movies fs st = (.ok res, st') →
      MovieDataSource.movies fs st' = (.ok res, st')) := by
  refine ⟨?_, ?_, ?_⟩
  · intro ms hstale hload
    obtain ⟨hr, hb⟩ := loadMovies_ok_elim rows ms hload
    rw [movies_eq fs t rows st hf, if_pos hstale]
    simp [hr, hb]
  · intro ms₀ hsome hnew
    have hc : ¬ (st.movies = none ∨ t > st.last_modified) := by
      rintro (h | h)
      · rw [hsome] at h
        cases h
      · exact hnew h
    rw [movies_eq fs t rows st hf, if_neg hc, hsome]
    rfl
  · intro res st' h
    rw [movies_eq fs t rows st hf] at h
    by_cases hc : st.movies = none ∨ t > st.last_modified
    · rw [if_pos hc] at h
      cases hr : loadRows rows with
      | error e =>
        rw [hr] at h
        simp at h
      | ok ms =>
        rw [hr] at h
        cases hb : (buildIndexRun ms).2 with
        | some e =>
          simp only [hb] at h
          simp at h
        | none =>
          simp only [hb] at h
          simp only [Prod.mk.injEq, Except.ok.injEq] at h
          obtain ⟨rfl, rfl⟩ := h
          rw [movies_eq fs t rows _ hf]
          simp
    · rw [if_neg hc] at h
      simp only [Prod.mk.injEq, Except.ok.injEq] at h
      obtain ⟨rfl, rfl⟩ := h
      rw [movies_eq fs t rows st hf, if_neg hc]

/-- Witness for C1: on the already-loaded example state with the file
untouched, the accessor returns the identical snapshot and state. -/
theorem C1_freshness_check_witness :
    MovieDataSource.movies demoFS demoSt1 = (.ok demoMovies, demoSt1) :=
  (C1_freshness_check demoFS 1 demoRows demoSt1 rfl).2.1 demoMovies rfl (by decide)

/-- C2 (code bug at the failing input): the claim — and the spec's own
"Bad row" test — say a load with a row missing a required field fails
with no partial snapshot installed and the indices unchanged. The code
does not: `csv.DictReader` fills the short row's missing `director` cell
with `None`, the row loop succeeds, `self._movies` is installed (line
92), and `_build_index` clears the old index and fully rebuilds the year
buckets before its director loop raises `AttributeError` (line 109) — so
the failed load leaves the new partial snapshot and a torn index behind
(only the timestamp is left unadvanced), and a row missing only its
`title` cell does not fail the load at all. -/
theorem C2_partial_snapshot_installed :
    (MovieDataSource.movies badFS MovieDataSource.mkState).1 = .error .attributeError
    ∧ (MovieDataSource.movies badFS MovieDataSource.mkState).2.movies
        = some [inception, Movie.mk (some "Dunkirk".data) 2017 none]
    ∧ bucketsTotal (MovieDataSource.movies badFS MovieDataSource.mkState).2.index.year
        = 2
    ∧ bucketsTotal (MovieDataSource.movies badFS MovieDataSource.mkState).2.index.director
        = 1
    ∧ (MovieDataSource.movies badFS MovieDataSource.mkState).2.last_modified = 0
    ∧ loadMovies [noTitleRow] = .ok [Movie.mk none 1997 (some "Cameron".data)] :=
  ⟨rfl, rfl, rfl, rfl, rfl, rfl⟩

/-- C5: loading a file of N well-formed rows yields exactly N records, in
file order, each record's title and director equal to the source cells
and its year the integer parse of the year cell. -/
theorem C5_round_trip (rows : List RawRow) (h : ∀ r ∈ rows, rowOk r = true) :
    loadMovies rows = .ok (rows.map rowMovie)
    ∧ (rows.map rowMovie).length = rows.length
    ∧ ∀ r ∈ rows,
        (rowMovie r).title = r.title
        ∧ pyInt (r.release_year.getD []) = some (rowMovie r).release_year
        ∧ (rowMovie r).director = r.director := by
  have hsome : ∀ m ∈ rows.map rowMovie, m.director.isSome = true := by
    intro m hm
    obtain ⟨r, hrr, rfl⟩ := List.mem_map.mp hm
    have hok := h r hrr
    simp only [rowOk, Bool.and_eq_true, Option.isSome_iff_exists] at hok
    obtain ⟨⟨⟨-, -⟩, d, hd⟩, -⟩ := hok
    simp [rowMovie, hd]
  refine ⟨loadMovies_ok_intro _ _ (loadRows_ok rows h) (buildIndexRun_ok _ hsome),
    by simp, ?_⟩
  intro r hr
  have hok := h r hr
  simp only [rowOk, Bool.and_eq_true, Option.isSome_iff_exists] at hok
  obtain ⟨-, v, hv⟩ := hok
  exact ⟨rfl, by simp [rowMovie, hv], rfl⟩

/-- Witness for C5 on the example file: both rows load, in order, to the
expected records. -/
theorem C5_round_trip_witness :
    loadMovies demoRows = .ok demoMovies ∧ demoMovies.length = demoRows.length := by
  have h := C5_round_trip demoRows (by decide)
  exact ⟨h.1, h.2.1⟩

/-- C7: the Year strategy matches by exact integer equality on
`release_year`; on the two-record example file, `search(Director,
"nolan")` returns both records in file order, `search(Year, 2010)`
returns only Inception, and `search(Title, "xyz")` returns the empty
sequence rather than an error. -/
theorem C7_year_exact_and_examples :
    (∀ (movies : List Movie) (n : Int) (m : Movie),
      m ∈ YearSearchStrategy.search movies (.int n) ↔
        m ∈ movies ∧ m.release_year = n)
    ∧ loadMovies demoRows = .ok demoMovies
    ∧ (MovieManager.search demoFS .DIRECTOR (.str "nolan".data)
        MovieManager.mkState).1 = .ok demoMovies
    ∧ (MovieManager.search demoFS .YEAR (.int 2010)
        MovieManager.mkState).1 = .ok [inception]
    ∧ (MovieManager.search demoFS .TITLE (.str "xyz".data)
        MovieManager.mkState).1 = .ok [] := by
  refine ⟨?_, by rfl, by rfl, by rfl, by rfl⟩
  intro movies n m
  simp [YearSearchStrategy.search, List.mem_filter, pyEq]

/-- C10: a non-integer (string) argument reaching the Year strategy
yields the silent empty result: `release_year == query` is false across
types for every record, and the YEAR dispatch never raises. -/
theorem C10_year_non_integer_empty :
    (∀ (movies : List Movie) (s : List Char),
      YearSearchStrategy.search movies (.str s) = [])
    ∧ (∀ (movies : List Movie) (q : PyValue),
      runStrategy .YEAR movies q = .ok (YearSearchStrategy.search movies q)) := by
  constructor
  · intro movies s
    simp [YearSearchStrategy.search, pyEq]
  · intro movies q
    cases q <;> rfl

/-- C6: on every record list (title and director present, as the claim's
"records" are), the Title strategy returns exactly the records whose
title contains the argument as a substring ignoring case — stated both as
the computed filter, in list order, and as a membership characterization
by a decomposition of the lower-cased title around the lower-cased
argument — the Director strategy does the same on `director`, and the
result is invariant under changing the letter case of the query argument
or of the stored field. -/
theorem C6_case_insensitive_strategies (movies : List Record) (q : List Char) :
    (TitleSearchStrategy.search (movies.map Record.movie) q
      = .ok ((movies.filter (fun r => containsSub (pyLower q) (pyLower r.title))).map
          Record.movie))
    ∧ (DirectorSearchStrategy.search (movies.map Record.movie) q
      = .ok ((movies.filter (fun r => containsSub (pyLower q) (pyLower r.director))).map
          Record.movie))
    ∧ (∀ m, m ∈ movies.filter (fun r => containsSub (pyLower q) (pyLower r.title))
        ↔ m ∈ movies ∧ ∃ p t, pyLower m.title = p ++ pyLower q ++ t)
    ∧ (∀ m, m ∈ movies.filter (fun r => containsSub (pyLower q) (pyLower r.director))
        ↔ m ∈ movies ∧ ∃ p t, pyLower m.director = p ++ pyLower q ++ t)
    ∧ (∀ q', pyLower q = pyLower q' →
      TitleSearchStrategy.search (movies.map Record.movie) q
          = TitleSearchStrategy.search (movies.map Record.movie) q'
      ∧ DirectorSearchStrategy.search (movies.map Record.movie) q
          = DirectorSearchStrategy.search (movies.map Record.movie) q')
    ∧ (∀ m m' : Record, pyLower m.title = pyLower m'.title →
      containsSub (pyLower q) (pyLower m.title)
        = containsSub (pyLower q) (pyLower m'.title))
    ∧ (∀ m m' : Record, pyLower m.director = pyLower m'.director →
      containsSub (pyLower q) (pyLower m.director)
        = containsSub (pyLower q) (pyLower m'.director)) := by
  refine ⟨titleFilter_map movies (pyLower q), directorFilter_map movies (pyLower q),
    ?_, ?_, ?_, ?_, ?_⟩
  · intro m
    simp [List.mem_filter, containsSub_iff]
  · intro m
    simp [List.mem_filter, containsSub_iff]
  · intro q' hq
    exact ⟨by simp [TitleSearchStrategy.search, hq],
           by simp [DirectorSearchStrategy.search, hq]⟩
  · intro m m' h
    rw [h]
  · intro m m' h
    rw [h]

/-- Witness for C6: changing the case of the query leaves the title
search on the example records unchanged, and the upper-case query
`"INTER"` matches the stored `"Interstellar"`. -/
theorem C6_case_insensitive_strategies_witness :
    TitleSearchStrategy.search (demoRecords.map Record.movie) "INTER".data
      = TitleSearchStrategy.search (demoRecords.map Record.movie) "inter".data
    ∧ TitleSearchStrategy.search (demoRecords.map Record.movie) "INTER".data
      = .ok [interstellar] := by
  have h := C6_case_insensitive_strategies demoRecords "INTER".data
  refine ⟨(h.2.2.2.2.1 "inter".data (by decide)).1, ?_⟩
  rw [h.1]
  rfl

/-- C4: (a) on a cache hit, `search` returns the cached sequence and the
record store is untouched — no freshness check, no reload, for any state
of the backing file, which is exactly why a cached answer can be stale
relative to a reloaded source; (b) hence an identical repeated query
returns an equal result with no second store access. Nothing in `search`
ever removes a cache entry on reload. -/
theorem C4_cache_hit_no_store_access (fs : FileState) (c : SearchCriteria)
    (q : PyValue) (st : ManagerState) :
    (∀ res, st.cache.lookup (c, q) = some res →
      (MovieManager.search fs c q st).1 = .ok res
      ∧ (MovieManager.search fs c q st).2.source = st.source)
    ∧ (∀ res st', MovieManager.search fs c q st = (.ok res, st') →
      (MovieManager.search fs c q st').1 = .ok res
      ∧ (MovieManager.search fs c q st').2.source = st'.source) := by
  constructor
  · intro res h
    rw [search_hit fs c q st res h]
    exact ⟨rfl, rfl⟩
  · intro res st' h
    have hl := search_ok_lookup fs c q st res st' h
    rw [search_hit fs c q st' res hl]
    exact ⟨rfl, rfl⟩

/-- Witness for C4: with the director query cached, repeating it against
a since-rewritten file still returns the old two-record answer and leaves
the store untouched (stale cache, no reload). -/
theorem C4_cache_hit_no_store_access_witness :
    (MovieManager.search demoFS2 .DIRECTOR (.str "nolan".data) mgrAfterNolan).1
      = .ok demoMovies
    ∧ (MovieManager.search demoFS2 .DIRECTOR (.str "nolan".data) mgrAfterNolan).2.source
      = mgrAfterNolan.source :=
  (C4_cache_hit_no_store_access demoFS2 .DIRECTOR (.str "nolan".data)
    mgrAfterNolan).1 demoMovies (by rfl)

/-- C3 counterexample: after `search(TITLE, "A")` the cache holds the raw
key `(TITLE, "A")` and nothing under `(TITLE, "a")` — the argument is not
lower-cased before the cache key is computed — and the case-variant
repeat `search(TITLE, "a")` therefore misses and installs a second,
separate cache entry instead of hitting the first. -/
theorem C3_cache_key_counterexample :
    mgrAfterTitleA.cache.lookup (.TITLE, .str "a".data) = none
    ∧ mgrAfterTitleA.cache.lookup (.TITLE, .str "A".data) = some [interstellar]
    ∧ (MovieManager.search demoFS .TITLE (.str "a".data) mgrAfterTitleA).2.cache.length
        = 2 :=
  ⟨rfl, rfl, rfl⟩

/-- C3 amended: `search` computes its cache key from the raw
`(kind, argument)` pair with no normalization: any query whose raw pair
is not a cached key — even one differing from a cached key only in letter
case — is a miss that consults the record store, recomputes, and installs
its own entry under the raw pair. -/
theorem C3_raw_cache_key (fs : FileState) (c : SearchCriteria) (q : PyValue)
    (st : ManagerState) (ms : List Movie) (src : SourceState) (res : List Movie)
    (hmiss : st.cache.lookup (c, q) = none)
    (hs : MovieDataSource.movies fs st.source = (.ok ms, src))
    (hr : runStrategy c ms q = .ok res) :
    MovieManager.search fs c q st =
      (.ok res,
       { source := src,
         cache := ((c, q), res) ::
           (if st.cache.length ≥ 128 then st.cache.dropLast else st.cache) }) :=
  search_miss_ok fs c q st ms src res hmiss hs hr

/-- Witness for C3 (amended): with `(TITLE, "A")` cached, the case
variant `(TITLE, "a")` is a miss: the store is consulted again and a
second entry keyed by the raw `(TITLE, "a")` is installed. -/
theorem C3_raw_cache_key_witness :
    MovieManager.search demoFS .TITLE (.str "a".data) mgrAfterTitleA =
      (.ok [interstellar],
       { source := mgrAfterTitleA.source,
         cache := ((.TITLE, .str "a".data), [interstellar]) ::
           (if mgrAfterTitleA.cache.length ≥ 128 then mgrAfterTitleA.cache.dropLast
            else mgrAfterTitleA.cache) }) :=
  C3_raw_cache_key demoFS .TITLE (.str "a".data) mgrAfterTitleA demoMovies
    mgrAfterTitleA.source [interstellar] (by rfl) (by rfl) (by rfl)

/-- C8 counterexample: class `MovieDataSource` defines no `lookupByYear`
or `lookupByDirector` operation at all — its attribute surface is exactly
`__init__`, the `movies` property, `_load_movies` and `_build_index` —
so the claimed index-lookup operations do not exist (the index is built
but never read). -/
theorem C8_no_lookup_counterexample :
    ¬ ("lookupByYear" ∈ MovieDataSource.methodNames
       ∨ "lookupByDirector" ∈ MovieDataSource.methodNames) := by
  decide

/-- C8 amended: after every successful reload the secondary index is
rebuilt in full from the new snapshot alone — whatever index the store
held before does not enter — and it maps each year rendered as a string,
and each lower-cased director, to the ordered sequence of records sharing
that key; but the class exposes no lookup operation over it. -/
theorem C8_index_rebuild (fs : FileState) (t : Int) (rows : List RawRow)
    (st : SourceState) (ms : List Movie)
    (hf : fs.file = some (t, rows))
    (hstale : st.movies = none ∨ t > st.last_modified)
    (hload : loadMovies rows = .ok ms) :
    (MovieDataSource.movies fs st).2.index = buildIndex ms
    ∧ (∀ k, idxGet (buildIndex ms).year k
        = ms.filter (fun m => decide (pyStrInt m.release_year = k)))
    ∧ (∀ k, idxGet (buildIndex ms).director k
        = ms.filter (fun m => decide (pyLower (m.director.getD []) = k))) := by
  obtain ⟨hr, hb⟩ := loadMovies_ok_elim rows ms hload
  have hsome : ∀ m ∈ ms, m.director.isSome = true :=
    buildDirector_all_some ms [] hb
  refine ⟨?_, buildIndex_year ms, fun k => buildIndex_director ms hsome k⟩
  rw [movies_eq fs t rows st hf, if_pos hstale]
  simp [hr, hb]

/-- Witness for C8 (amended): loading the example file from the virgin
state rebuilds the index in full, and its year bucket `"2010"` holds
exactly Inception while director bucket `"nolan"` holds both records. -/
theorem C8_index_rebuild_witness :
    (MovieDataSource.movies demoFS MovieDataSource.mkState).2.index
      = buildIndex demoMovies
    ∧ idxGet (buildIndex demoMovies).year "2010".data = [inception]
    ∧ idxGet (buildIndex demoMovies).director "nolan".data = demoMovies := by
  have h := C8_index_rebuild demoFS 1 demoRows MovieDataSource.mkState demoMovies
    rfl (Or.inl rfl) (by rfl)
  refine ⟨h.1, ?_, ?_⟩
  · rw [h.2.1 "2010".data]
    rfl
  · rw [h.2.2 "nolan".data]
    rfl

/-- C9 counterexample: the claim puts the whole check-then-act sequence,
the modification-time read included, inside the single critical section;
but in the source `os.path.getmtime` runs on line 68, before
`with self._lock:` is entered on line 70, so not every step of the
accessor body is under the lock. -/
theorem C9_lock_scope_counterexample :
    ¬ (∀ s ∈ moviesLockSteps, s.underLock = true) := by
  decide

/-- C9 amended: only the modification-time read precedes the critical
section; the staleness check, the reload with its index rebuild, the
timestamp update and the snapshot return all run under the one lock, and
the accessor preserves agreement between the snapshot and the index
count on every path — the year loop completes even when the director loop
raises — so no caller is handed a snapshot whose record list and year
index disagree in count. -/
theorem C9_critical_section (fs : FileState) (st : SourceState)
    (h : indexAgrees st) :
    ((moviesLockSteps.filter (fun s => !s.underLock)).map (fun s => s.action)
        = [.getmtime])
    ∧ indexAgrees (MovieDataSource.movies fs st).2 := by
  refine ⟨by decide, ?_⟩
  cases hf : fs.file with
  | none =>
    unfold MovieDataSource.movies
    rw [hf]
    exact h
  | some p =>
    rcases p with ⟨t, rows⟩
    rw [movies_eq fs t rows st hf]
    by_cases hc : st.movies = none ∨ t > st.last_modified
    · rw [if_pos hc]
      cases hr : loadRows rows with
      | error e => exact h
      | ok ms =>
        cases hb : (buildIndexRun ms).2 with
        | none =>
          simp only [hb]
          exact bucketsTotal_buildIndex_year ms
        | some e =>
          simp only [hb]
          exact bucketsTotal_buildIndex_year ms
    · rw [if_neg hc]
      exact h

/-- Witness for C9 (amended): from the virgin state (empty index, no
snapshot — counts agree at zero), a call on the example file leaves an
agreeing state. -/
theorem C9_critical_section_witness :
    ((moviesLockSteps.filter (fun s => !s.underLock)).map (fun s => s.action)
        = [.getmtime])
    ∧ indexAgrees (MovieDataSource.movies demoFS MovieDataSource.mkState).2 :=
  C9_critical_section demoFS MovieDataSource.mkState rfl

end MovieApp
